import Mathlib

set_option maxRecDepth 100000

/-!
Shallow embedding of the conversational-agent client in `src/main.py`
(`CookingRAGSystem.query_cooking_agent` together with its helper
`check_aws_connection`), and proofs of the specified properties of its
retry/session-rotation policy.

Modelling conventions:
* Python strings are Lean `String`s; `str.lower()` is modelled by mapping
  `Char.toLower` over the character data, and `str.strip()` by dropping
  whitespace characters from both ends of the character data.
* `botocore.exceptions.ClientError` is modelled by a `code`/`message` pair;
  `str(error)` is modelled by `ClientError.render`, following botocore's
  message template
  `"An error occurred ({code}) when calling the {operation} operation: {message}"`.
* The streamed `invoke_agent` response is a finite list of events; an event
  may carry a chunk with bytes (already UTF-8 decoded into a string), a chunk
  without bytes, or no chunk at all.
* The remote service's behaviour is an environment parameter
  `svc : Nat → InvokeOutcome` giving the outcome of the n-th `invoke_agent`
  call of one `query_cooking_agent` execution (0 = first attempt, 1 = retry).
* `uuid.uuid4()` draws are an environment parameter `gen : Nat → String`
  giving the successive generated identifiers.
* A result dictionary is the `QueryResult` structure; the optional
  `new_session` key is `new_session : Bool`, with an absent key read as
  `false`.  Exceptions are modelled with `Except`: the body
  (`askAttempts`) may end in a raised `PyError`, and the top level
  (`query_cooking_agent`) installs the two outer handlers, so it is total.
* `query_cooking_agent` additionally records the session identifiers passed
  to `invoke_agent`, in call order, so that "number of remote calls" is
  observable.
-/

namespace CookingRag

/-- Lowercase character data of a string — model of Python `s.lower()`. -/
def lowerChars (s : String) : List Char := s.data.map Char.toLower

/-- Boolean list-prefix test over characters. -/
def charsPre : List Char → List Char → Bool
  | [], _ => true
  | _ :: _, [] => false
  | a :: as, b :: bs => a == b && charsPre as bs

/-- Boolean substring (contiguous sublist) test — model of Python `pat in s`. -/
def charsContains (pat : List Char) : List Char → Bool
  | [] => charsPre pat []
  | c :: rest => charsPre pat (c :: rest) || charsContains pat rest

/-- Model of Python `s.strip()`: drop whitespace from both ends. -/
def pyStrip (s : String) : String :=
  ⟨((s.data.dropWhile Char.isWhitespace).reverse.dropWhile Char.isWhitespace).reverse⟩

/-- Model of `'context window' in s.lower() or 'memory turns' in s.lower()`
(src/main.py lines 194 and 256). -/
def isContextWindowText (s : String) : Bool :=
  charsContains "context window".data (lowerChars s) ||
  charsContains "memory turns".data (lowerChars s)

/-- The configured agent id (env default in src/main.py line 30). -/
def BEDROCK_AGENT_ID : String := "AMA9OYJSAA"

/-- Model of `botocore.exceptions.ClientError`: the error code and message
carried in `e.response`. -/
structure ClientError where
  code : String
  message : String
deriving DecidableEq, Repr

/-- Model of Python `str(e)` for a `ClientError`, following botocore's
message template for the `InvokeAgent` operation. -/
def ClientError.render (e : ClientError) : String :=
  "An error occurred (" ++ e.code ++ ") when calling the InvokeAgent operation: "
    ++ e.message

/-- One event of the streamed `invoke_agent` response (src/main.py 179-183):
a chunk holding decoded bytes, a chunk without a `bytes` key, or an event
without a `chunk` key. -/
inductive StreamEvent where
  | chunkBytes (s : String)
  | chunkNoBytes
  | nonChunk
deriving DecidableEq, Repr

/-- Outcome of one `invoke_agent` call: a completed stream, a raised
`ClientError`, or a raised non-`ClientError` exception. -/
inductive InvokeOutcome where
  | ok (events : List StreamEvent)
  | clientError (e : ClientError)
  | exn (msg : String)
deriving DecidableEq, Repr

/-- Model of the stream-draining loop (src/main.py 178-183): concatenate the
decoded bytes of every chunk event, in arrival order. -/
def concatEvents (events : List StreamEvent) : String :=
  events.foldl
    (fun acc ev =>
      match ev with
      | .chunkBytes s => acc ++ s
      | _ => acc)
    ""

/-- Global connection state read by the client: the flag and message set by
`initialize_aws_clients`, and whether the three AWS clients are non-None. -/
structure ConnState where
  aws_connection_status : Bool
  connection_error_message : String
  s3_client : Bool
  bedrock_agent_runtime : Bool
  bedrock_agent : Bool
deriving DecidableEq, Repr

/-- Model of `CookingRAGSystem.check_aws_connection` (src/main.py 143-149). -/
def check_aws_connection (c : ConnState) : Bool × String :=
  if c.aws_connection_status = false then
    (false,
      if c.connection_error_message = "" then "AWS clients not initialized"
      else c.connection_error_message)
  else if (c.s3_client && c.bedrock_agent_runtime && c.bedrock_agent) = false then
    (false, "AWS clients not properly configured")
  else
    (true, "AWS connection OK")

/-- Result dictionary of `query_cooking_agent`; the optional `new_session`
key is read as `false` when absent. -/
structure QueryResult where
  response : String
  session_id : Option String
  success : Bool
  new_session : Bool
deriving DecidableEq, Repr

/-- Python truthiness of the optional `session_id` argument
(`if not session_id:`): `None` and the empty string are falsy. -/
def truthyStr : Option String → Bool
  | none => false
  | some s => !(s == "")

/-- The canned guidance message returned when no attempt produced usable text
(src/main.py 232-240). -/
def NO_INFO_RESPONSE : String :=
  "🍳 I apologize, but I couldn\x27t find specific information about that recipe or cooking technique in my knowledge base. \n\nHere are some ways I can help you:\n- Ask about specific recipes (e.g., \"How do I make chocolate chip cookies?\")\n- Cooking techniques (e.g., \"How to properly sauté vegetables?\")\n- Ingredient substitutions (e.g., \"What can I use instead of eggs in baking?\")\n- Troubleshooting cooking problems\n\nPlease try rephrasing your question or ask about a specific recipe or cooking technique!"

/-- An exception escaping the inner attempt block: a `ClientError` or a
generic exception. -/
inductive PyError where
  | client (e : ClientError)
  | generic (msg : String)
deriving DecidableEq, Repr

/-- Output of `query_cooking_agent`: the result dictionary plus the list of
session identifiers passed to `invoke_agent`, in call order. -/
structure AskOut where
  result : QueryResult
  calls : List String
deriving DecidableEq, Repr

/-- The inner attempt logic of `query_cooking_agent` (src/main.py 168-246):
first attempt, the context-window-triggered retry with a fresh identifier,
and the canned-message fall-through.  `sid` is the normalized session
identifier, `k` the index of the next `gen` draw.  A raised exception is
returned as `Except.error` together with the next draw index at raise time;
the second component lists the session identifiers used by the calls made. -/
def askAttempts (sid : String) (gen : Nat → String) (k : Nat)
    (svc : Nat → InvokeOutcome) :
    Except (PyError × Nat) QueryResult × List String :=
  match svc 0 with
  | .ok events =>
      let result := concatEvents events
      if pyStrip result ≠ "" then
        (.ok { response := pyStrip result, session_id := some sid,
               success := true, new_session := false }, [sid])
      else
        (.ok { response := NO_INFO_RESPONSE, session_id := some sid,
               success := true, new_session := false }, [sid])
  | .clientError e =>
      if isContextWindowText e.render then
        let new_session_id := gen k
        match svc 1 with
        | .ok events =>
            let result := concatEvents events
            if pyStrip result ≠ "" then
              (.ok { response := pyStrip result, session_id := some new_session_id,
                     success := true, new_session := true }, [sid, new_session_id])
            else
              (.ok { response := NO_INFO_RESPONSE, session_id := some sid,
                     success := true, new_session := false }, [sid, new_session_id])
        | .clientError _ => (.error (.client e, k + 1), [sid, new_session_id])
        | .exn _ => (.error (.client e, k + 1), [sid, new_session_id])
      else
        (.error (.client e, k), [sid])
  | .exn msg => (.error (.generic msg, k), [sid])

/-- The outer `except ClientError` handler (src/main.py 248-273). -/
def handleClientError (e : ClientError) (sid : String) (gen : Nat → String)
    (k : Nat) : QueryResult :=
  if e.code = "ResourceNotFoundException" then
    { response := " Bedrock agent not found. Please verify agent ID: " ++ BEDROCK_AGENT_ID,
      session_id := some sid, success := false, new_session := false }
  else if e.code = "AccessDeniedException" then
    { response := "Access denied to Bedrock agent. Check IAM permissions.",
      session_id := some sid, success := false, new_session := false }
  else if isContextWindowText e.message then
    { response := "Conversation too long. Starting fresh session...",
      session_id := some (gen k), success := true, new_session := true }
  else
    { response := " Bedrock error: " ++ e.message,
      session_id := some sid, success := false, new_session := false }

/-- The outer `except Exception` handler (src/main.py 275-281). -/
def handleGenericError (msg : String) (sid : String) : QueryResult :=
  { response := "I encountered an error while processing your cooking query: " ++ msg,
    session_id := some sid, success := false, new_session := false }

/-- Model of `CookingRAGSystem.query_cooking_agent` (src/main.py 151-281):
connectivity gate, lazy session-identifier creation, the attempt logic, and
the two outer exception handlers.  The query text is passed opaquely to the
remote call and never influences the client's own control flow, so it does
not appear as a parameter of the model; the remote behaviour `svc` already
accounts for it. -/
def query_cooking_agent (conn : ConnState) (session_id : Option String)
    (gen : Nat → String) (svc : Nat → InvokeOutcome) : AskOut :=
  let chk := check_aws_connection conn
  if chk.1 = false then
    { result := { response := "🚫 Cannot process your cooking query: " ++ chk.2,
                  session_id := session_id, success := false, new_session := false },
      calls := [] }
  else
    let sid := if truthyStr session_id then session_id.getD "" else gen 0
    let k : Nat := if truthyStr session_id then 0 else 1
    match askAttempts sid gen k svc with
    | (.ok r, calls) => { result := r, calls := calls }
    | (.error (.client e, k2), calls) =>
        { result := handleClientError e sid gen k2, calls := calls }
    | (.error (.generic m, _), calls) =>
        { result := handleGenericError m sid, calls := calls }

/-! Concrete environments used to instantiate the theorems below. -/

/-- A connection state in which every AWS client is initialized. -/
def connOk : ConnState :=
  { aws_connection_status := true, connection_error_message := "",
    s3_client := true, bedrock_agent_runtime := true, bedrock_agent := true }

/-- A connection state in which initialization failed. -/
def connDown : ConnState :=
  { aws_connection_status := false, connection_error_message := "no credentials",
    s3_client := false, bedrock_agent_runtime := false, bedrock_agent := false }

/-- A concrete identifier generator standing for the `uuid.uuid4()` draws. -/
def genFresh : Nat → String := fun _ => "b2f7c0de-sess"

/-- A concrete context-window `ClientError` (message matches the detection). -/
def ctxErr : ClientError :=
  { code := "ValidationException",
    message := "Input is longer than the model context window supports" }

/-- Remote behaviour: context-window failure, then a failing retry. -/
def svcBothFail : Nat → InvokeOutcome := fun n =>
  if n = 0 then .clientError ctxErr
  else .clientError { code := "ThrottlingException", message := "rate exceeded" }

/-- Remote behaviour: context-window failure, then a successful retry. -/
def svcRetryOk : Nat → InvokeOutcome := fun n =>
  if n = 0 then .clientError ctxErr else .ok [.chunkBytes "ok"]

/-- Remote behaviour: context-window failure, then a whitespace-only retry. -/
def svcCtxThenBlank : Nat → InvokeOutcome := fun n =>
  if n = 0 then .clientError ctxErr else .ok [.chunkBytes "  \n"]

/-- Remote behaviour: one fragment carrying surrounding whitespace. -/
def svcPadded : Nat → InvokeOutcome := fun _ => .ok [.chunkBytes " Bonjour "]

/-- Remote behaviour: the two-fragment stream of the specification example. -/
def svcBonjour : Nat → InvokeOutcome := fun _ =>
  .ok [.chunkBytes "Bon", .chunkBytes "jour"]

/-- Remote behaviour: a stream with no usable chunk. -/
def svcBlank : Nat → InvokeOutcome := fun _ => .ok [.chunkNoBytes, .nonChunk]

/-- Remote behaviour: an agent-not-found error on every call. -/
def svcNotFound : Nat → InvokeOutcome := fun _ =>
  .clientError { code := "ResourceNotFoundException", message := "no agent" }

/-! Helper lemmas. -/

/-- A string with a non-empty left part is non-empty. -/
lemma append_ne_empty (a b : String) (ha : a ≠ "") : a ++ b ≠ "" := by
  intro h
  apply ha
  have hd : a.data ++ b.data = [] := by
    rw [← String.data_append, h]
  rcases List.append_eq_nil.mp hd with ⟨h1, _⟩
  exact String.ext h1

/-- The canned guidance message is non-empty. -/
lemma no_info_ne_empty : NO_INFO_RESPONSE ≠ "" := by decide

/-- Substring search succeeds on any extension of the text to the left. -/
lemma charsContains_append_left (pat p m : List Char)
    (h : charsContains pat m = true) : charsContains pat (p ++ m) = true := by
  induction p with
  | nil => simpa using h
  | cons c cs ih =>
      show (charsPre pat (c :: (cs ++ m)) || charsContains pat (cs ++ m)) = true
      rw [ih, Bool.or_true]

/-- Lowercasing distributes over string concatenation. -/
lemma lowerChars_append (a b : String) :
    lowerChars (a ++ b) = lowerChars a ++ lowerChars b := by
  simp [lowerChars, String.data_append]

/-- Context-window text detection is monotone under left extension. -/
lemma isContextWindowText_append (a b : String)
    (h : isContextWindowText b = true) : isContextWindowText (a ++ b) = true := by
  unfold isContextWindowText at h ⊢
  rw [lowerChars_append]
  cases h1 : charsContains "context window".data (lowerChars b) with
  | true => rw [charsContains_append_left _ _ _ h1, Bool.true_or]
  | false =>
      have h2 : charsContains "memory turns".data (lowerChars b) = true := by
        rw [h1] at h; simpa using h
      rw [charsContains_append_left _ _ _ h2, Bool.or_true]

/-- If the message of a `ClientError` matches the context-window text, so does
its full rendering (the message is a suffix of the rendering). -/
lemma ctx_render_of_message {e : ClientError}
    (h : isContextWindowText e.message = true) :
    isContextWindowText e.render = true := by
  unfold ClientError.render
  exact isContextWindowText_append _ _ h

/-- Contrapositive: a rendering that does not match means a message that does
not match either. -/
lemma ctx_message_of_not_render {e : ClientError}
    (h : isContextWindowText e.render = false) :
    isContextWindowText e.message = false := by
  cases hm : isContextWindowText e.message with
  | false => rfl
  | true => rw [ctx_render_of_message hm] at h; exact absurd h (by simp)

/-- A truthy optional session identifier yields a non-empty normalized one. -/
lemma truthy_getD {sid0 : Option String} (h : truthyStr sid0 = true) :
    sid0.getD "" ≠ "" := by
  cases sid0 with
  | none => simp [truthyStr] at h
  | some s => simp [truthyStr] at h; simpa using h

/-- The truthiness test on an explicit non-empty identifier. -/
lemma truthy_some {s : String} (hs : s ≠ "") : truthyStr (some s) = true := by
  simp [truthyStr, hs]

/-- The normalized session identifier is non-empty whenever generated
identifiers are. -/
lemma sid_norm_ne_empty (sid0 : Option String) (gen : Nat → String)
    (hgen : ∀ n, gen n ≠ "") :
    (if truthyStr sid0 then sid0.getD "" else gen 0) ≠ "" := by
  by_cases h : truthyStr sid0 = true
  · rw [if_pos h]; exact truthy_getD h
  · rw [if_neg h]; exact hgen 0

/-- Every branch of the outer `ClientError` handler produces a non-empty
response text. -/
lemma handleClientError_response_ne_empty (e : ClientError) (sid : String)
    (gen : Nat → String) (k : Nat) :
    (handleClientError e sid gen k).response ≠ "" := by
  unfold handleClientError
  split_ifs
  · show " Bedrock agent not found. Please verify agent ID: " ++ BEDROCK_AGENT_ID ≠ ""
    decide
  · show "Access denied to Bedrock agent. Check IAM permissions." ≠ ""
    decide
  · show "Conversation too long. Starting fresh session..." ≠ ""
    decide
  · show " Bedrock error: " ++ e.message ≠ ""
    exact append_ne_empty _ _ (by decide)

/-- The generic exception handler produces a non-empty response text. -/
lemma handleGenericError_response_ne_empty (msg : String) (sid : String) :
    (handleGenericError msg sid).response ≠ "" := by
  unfold handleGenericError
  exact append_ne_empty _ _ (by decide)

/-- Whenever the outer `ClientError` handler reports success, its session
identifier is a freshly generated one. -/
lemma handleClientError_success_session (e : ClientError) (sid : String)
    (gen : Nat → String) (k : Nat) (hgen : ∀ n, gen n ≠ "") :
    (handleClientError e sid gen k).success = true →
    ∃ s, (handleClientError e sid gen k).session_id = some s ∧ s ≠ "" := by
  unfold handleClientError
  split_ifs <;> simp
  exact hgen k

/-- Every execution path of the client yields a non-empty response text. -/
lemma ask_response_ne_empty (conn : ConnState) (sid0 : Option String)
    (gen : Nat → String) (svc : Nat → InvokeOutcome) :
    (query_cooking_agent conn sid0 gen svc).result.response ≠ "" := by
  by_cases hc : (check_aws_connection conn).1 = false
  · simp only [query_cooking_agent, hc, if_pos]
    exact append_ne_empty _ _ (by decide)
  · cases h0 : svc 0 with
    | ok events =>
        by_cases he : pyStrip (concatEvents events) = ""
        · simp [query_cooking_agent, hc, askAttempts, h0, he, no_info_ne_empty]
        · simp [query_cooking_agent, hc, askAttempts, h0, he]
    | clientError e =>
        by_cases hcx : isContextWindowText e.render = true
        · cases h1 : svc 1 with
          | ok events2 =>
              by_cases he2 : pyStrip (concatEvents events2) = ""
              · simp [query_cooking_agent, hc, askAttempts, h0, hcx, h1, he2,
                  no_info_ne_empty]
              · simp [query_cooking_agent, hc, askAttempts, h0, hcx, h1, he2]
          | clientError e2 =>
              simp [query_cooking_agent, hc, askAttempts, h0, hcx, h1]
              exact handleClientError_response_ne_empty _ _ _ _
          | exn m =>
              simp [query_cooking_agent, hc, askAttempts, h0, hcx, h1]
              exact handleClientError_response_ne_empty _ _ _ _
        · rw [Bool.not_eq_true] at hcx
          simp [query_cooking_agent, hc, askAttempts, h0, hcx]
          exact handleClientError_response_ne_empty _ _ _ _
    | exn m =>
        simp [query_cooking_agent, hc, askAttempts, h0]
        exact handleGenericError_response_ne_empty _ _

/-! Claim theorems. -/

/-- C3: for any query, when the connectivity gate reports disconnected, the
client returns success=false with a (non-empty) diagnostic message and
performs zero invocations of the remote agent service. -/
theorem ask_disconnected_no_remote_calls
    (conn : ConnState) (sid0 : Option String) (gen : Nat → String)
    (svc : Nat → InvokeOutcome)
    (hconn : (check_aws_connection conn).1 = false) :
    (query_cooking_agent conn sid0 gen svc).result.success = false ∧
    (query_cooking_agent conn sid0 gen svc).result.response ≠ "" ∧
    (query_cooking_agent conn sid0 gen svc).calls = [] := by
  refine ⟨?_, ?_, ?_⟩
  · simp [query_cooking_agent, hconn]
  · simp [query_cooking_agent, hconn]
    exact append_ne_empty _ _ (by decide)
  · simp [query_cooking_agent, hconn]

/-- C3 witness at a concrete disconnected state. -/
theorem ask_disconnected_no_remote_calls_witness :
    (query_cooking_agent connDown (some "s0") genFresh svcPadded).result.success = false ∧
    (query_cooking_agent connDown (some "s0") genFresh svcPadded).result.response ≠ "" ∧
    (query_cooking_agent connDown (some "s0") genFresh svcPadded).calls = [] :=
  ask_disconnected_no_remote_calls connDown (some "s0") genFresh svcPadded (by decide)

/-- C7: the client is a total function into result values — no remote error
escapes as an unhandled exception — and on every input, whatever the remote
behaviour, the result carries a success flag and a non-empty human-readable
message. -/
theorem ask_always_wellformed_result
    (conn : ConnState) (sid0 : Option String) (gen : Nat → String)
    (svc : Nat → InvokeOutcome) :
    ((query_cooking_agent conn sid0 gen svc).result.success = true ∨
      (query_cooking_agent conn sid0 gen svc).result.success = false) ∧
    (query_cooking_agent conn sid0 gen svc).result.response ≠ "" :=
  ⟨by cases (query_cooking_agent conn sid0 gen svc).result.success <;> simp,
    ask_response_ne_empty conn sid0 gen svc⟩

/-- C10: every result returned with success=true carries non-empty response
text. -/
theorem ask_success_response_nonempty
    (conn : ConnState) (sid0 : Option String) (gen : Nat → String)
    (svc : Nat → InvokeOutcome)
    (_hsucc : (query_cooking_agent conn sid0 gen svc).result.success = true) :
    (query_cooking_agent conn sid0 gen svc).result.response ≠ "" :=
  ask_response_ne_empty conn sid0 gen svc

/-- C10 witness at a concrete successful query. -/
theorem ask_success_response_nonempty_witness :
    (query_cooking_agent connOk (some "s0") genFresh svcBonjour).result.response ≠ "" :=
  ask_success_response_nonempty connOk (some "s0") genFresh svcBonjour (by decide)

/-- C6: whenever generated identifiers are non-empty, every result returned
with success=true carries a defined, non-empty session identifier. -/
theorem ask_success_session_nonempty
    (conn : ConnState) (sid0 : Option String) (gen : Nat → String)
    (svc : Nat → InvokeOutcome) (hgen : ∀ n, gen n ≠ "") :
    (query_cooking_agent conn sid0 gen svc).result.success = true →
    ∃ s, (query_cooking_agent conn sid0 gen svc).result.session_id = some s ∧
      s ≠ "" := by
  have hsid := sid_norm_ne_empty sid0 gen hgen
  by_cases hc : (check_aws_connection conn).1 = false
  · simp [query_cooking_agent, hc]
  · cases h0 : svc 0 with
    | ok events =>
        by_cases he : pyStrip (concatEvents events) = "" <;>
        · intro _
          exact ⟨(if truthyStr sid0 then sid0.getD "" else gen 0),
            by simp [query_cooking_agent, hc, askAttempts, h0, he], hsid⟩
    | clientError e =>
        by_cases hcx : isContextWindowText e.render = true
        · cases h1 : svc 1 with
          | ok events2 =>
              by_cases he2 : pyStrip (concatEvents events2) = ""
              · intro _
                exact ⟨(if truthyStr sid0 then sid0.getD "" else gen 0),
                  by simp [query_cooking_agent, hc, askAttempts, h0, hcx, h1, he2],
                  hsid⟩
              · intro _
                exact ⟨gen (if truthyStr sid0 then 0 else 1),
                  by simp [query_cooking_agent, hc, askAttempts, h0, hcx, h1, he2],
                  hgen _⟩
          | clientError e2 =>
              simp [query_cooking_agent, hc, askAttempts, h0, hcx, h1]
              exact handleClientError_success_session _ _ _ _ hgen
          | exn m =>
              simp [query_cooking_agent, hc, askAttempts, h0, hcx, h1]
              exact handleClientError_success_session _ _ _ _ hgen
        · rw [Bool.not_eq_true] at hcx
          simp [query_cooking_agent, hc, askAttempts, h0, hcx]
          exact handleClientError_success_session _ _ _ _ hgen
    | exn m =>
        simp [query_cooking_agent, hc, askAttempts, h0, handleGenericError]

/-- Generated identifiers of the concrete generator are non-empty. -/
lemma genFresh_ne_empty (n : Nat) : genFresh n ≠ "" :=
  (by decide : ("b2f7c0de-sess" : String) ≠ "")

/-- C6 witness at a concrete successful query. -/
theorem ask_success_session_nonempty_witness :
    ∃ s, (query_cooking_agent connOk (some "s0") genFresh svcBonjour).result.session_id =
        some s ∧ s ≠ "" :=
  ask_success_session_nonempty connOk (some "s0") genFresh svcBonjour
    genFresh_ne_empty (by decide)

/-- C2: when the first invocation fails with an error whose text matches the
context-window detection and the retry under the freshly generated
identifier succeeds with non-whitespace text, the client returns
success=true, the new-session flag, the freshly generated identifier as the
session, and that identifier differs from the input one. -/
theorem ask_ctx_retry_success_rotates
    (conn : ConnState) (s : String) (gen : Nat → String)
    (svc : Nat → InvokeOutcome) (e : ClientError) (events : List StreamEvent)
    (hconn : (check_aws_connection conn).1 = true)
    (hs : s ≠ "")
    (h0 : svc 0 = .clientError e)
    (hctx : isContextWindowText e.render = true)
    (h1 : svc 1 = .ok events)
    (hne : pyStrip (concatEvents events) ≠ "")
    (hfresh : gen 0 ≠ s) :
    (query_cooking_agent conn (some s) gen svc).result.success = true ∧
    (query_cooking_agent conn (some s) gen svc).result.new_session = true ∧
    (query_cooking_agent conn (some s) gen svc).result.session_id = some (gen 0) ∧
    (query_cooking_agent conn (some s) gen svc).result.response =
      pyStrip (concatEvents events) ∧
    gen 0 ≠ s := by
  refine ⟨?_, ?_, ?_, ?_, hfresh⟩ <;>
    simp [query_cooking_agent, hconn, truthy_some hs, askAttempts, h0, hctx, h1, hne]

/-- C2 witness at a concrete rotating retry. -/
theorem ask_ctx_retry_success_rotates_witness :
    (query_cooking_agent connOk (some "s0") genFresh svcRetryOk).result.success = true ∧
    (query_cooking_agent connOk (some "s0") genFresh svcRetryOk).result.new_session = true ∧
    (query_cooking_agent connOk (some "s0") genFresh svcRetryOk).result.session_id =
      some (genFresh 0) ∧
    (query_cooking_agent connOk (some "s0") genFresh svcRetryOk).result.response =
      pyStrip (concatEvents [StreamEvent.chunkBytes "ok"]) ∧
    genFresh 0 ≠ "s0" :=
  ask_ctx_retry_success_rotates connOk "s0" genFresh svcRetryOk ctxErr
    [StreamEvent.chunkBytes "ok"] (by decide) (by decide) rfl (by decide) rfl
    (by decide) (by decide)

/-- C5: when the remote call completes without error but the concatenated
fragment text strips to empty, the client returns success=true with the
canned guidance message, the session identifier that was used for the
invocation, and no new-session flag. -/
theorem ask_blank_stream_returns_guidance
    (conn : ConnState) (sid0 : Option String) (gen : Nat → String)
    (svc : Nat → InvokeOutcome) (events : List StreamEvent)
    (hconn : (check_aws_connection conn).1 = true)
    (h0 : svc 0 = .ok events)
    (he : pyStrip (concatEvents events) = "") :
    (query_cooking_agent conn sid0 gen svc).result =
      { response := NO_INFO_RESPONSE,
        session_id := some (if truthyStr sid0 then sid0.getD "" else gen 0),
        success := true, new_session := false } ∧
    (query_cooking_agent conn sid0 gen svc).calls =
      [if truthyStr sid0 then sid0.getD "" else gen 0] := by
  constructor <;> simp [query_cooking_agent, hconn, askAttempts, h0, he]

/-- C5 witness at a concrete blank stream. -/
theorem ask_blank_stream_returns_guidance_witness :
    (query_cooking_agent connOk (some "s0") genFresh svcBlank).result =
      { response := NO_INFO_RESPONSE, session_id := some "s0",
        success := true, new_session := false } ∧
    (query_cooking_agent connOk (some "s0") genFresh svcBlank).calls = ["s0"] :=
  ask_blank_stream_returns_guidance connOk (some "s0") genFresh svcBlank
    [StreamEvent.chunkNoBytes, StreamEvent.nonChunk] (by decide) rfl (by decide)

/-- C9: when a context-window failure triggers the retry and the retry
succeeds with only whitespace, the client falls through to the canned
message with the ORIGINAL input session identifier and no new-session flag;
the fresh identifier used for the retry call is discarded. -/
theorem ask_ctx_retry_blank_keeps_original_session
    (conn : ConnState) (s : String) (gen : Nat → String)
    (svc : Nat → InvokeOutcome) (e : ClientError) (events : List StreamEvent)
    (hconn : (check_aws_connection conn).1 = true)
    (hs : s ≠ "")
    (h0 : svc 0 = .clientError e)
    (hctx : isContextWindowText e.render = true)
    (h1 : svc 1 = .ok events)
    (he : pyStrip (concatEvents events) = "") :
    (query_cooking_agent conn (some s) gen svc).result =
      { response := NO_INFO_RESPONSE, session_id := some s,
        success := true, new_session := false } ∧
    (query_cooking_agent conn (some s) gen svc).calls = [s, gen 0] := by
  constructor <;>
    simp [query_cooking_agent, hconn, truthy_some hs, askAttempts, h0, hctx, h1, he]

/-- C9 witness at a concrete whitespace-only retry. -/
theorem ask_ctx_retry_blank_keeps_original_session_witness :
    (query_cooking_agent connOk (some "s0") genFresh svcCtxThenBlank).result =
      { response := NO_INFO_RESPONSE, session_id := some "s0",
        success := true, new_session := false } ∧
    (query_cooking_agent connOk (some "s0") genFresh svcCtxThenBlank).calls =
      ["s0", genFresh 0] :=
  ask_ctx_retry_blank_keeps_original_session connOk "s0" genFresh svcCtxThenBlank
    ctxErr [StreamEvent.chunkBytes "  \n"] (by decide) (by decide) rfl (by decide)
    rfl (by decide)

/-- C8: a first-call `ClientError` that does not match the context-window
detection is surfaced as success=false with a message identifying the
failure category, the same session identifier, and no new-session flag. -/
theorem ask_other_error_reports_category
    (conn : ConnState) (s : String) (gen : Nat → String)
    (svc : Nat → InvokeOutcome) (e : ClientError)
    (hconn : (check_aws_connection conn).1 = true)
    (hs : s ≠ "")
    (h0 : svc 0 = .clientError e)
    (hctx : isContextWindowText e.render = false) :
    (query_cooking_agent conn (some s) gen svc).result =
      { response :=
          if e.code = "ResourceNotFoundException" then
            " Bedrock agent not found. Please verify agent ID: " ++ BEDROCK_AGENT_ID
          else if e.code = "AccessDeniedException" then
            "Access denied to Bedrock agent. Check IAM permissions."
          else " Bedrock error: " ++ e.message,
        session_id := some s, success := false, new_session := false } ∧
    (query_cooking_agent conn (some s) gen svc).calls = [s] := by
  have hmsg : isContextWindowText e.message = false := ctx_message_of_not_render hctx
  constructor
  · by_cases h1 : e.code = "ResourceNotFoundException"
    · simp [query_cooking_agent, hconn, truthy_some hs, askAttempts, h0, hctx,
        handleClientError, hmsg, h1]
    · by_cases h2 : e.code = "AccessDeniedException"
      · simp [query_cooking_agent, hconn, truthy_some hs, askAttempts, h0, hctx,
          handleClientError, hmsg, h1, h2]
      · simp [query_cooking_agent, hconn, truthy_some hs, askAttempts, h0, hctx,
          handleClientError, hmsg, h1, h2]
  · simp [query_cooking_agent, hconn, truthy_some hs, askAttempts, h0, hctx]

/-- C8 witness at a concrete agent-not-found error. -/
theorem ask_other_error_reports_category_witness :
    (query_cooking_agent connOk (some "s0") genFresh svcNotFound).result =
      { response := " Bedrock agent not found. Please verify agent ID: " ++ BEDROCK_AGENT_ID,
        session_id := some "s0", success := false, new_session := false } ∧
    (query_cooking_agent connOk (some "s0") genFresh svcNotFound).calls = ["s0"] :=
  ask_other_error_reports_category connOk "s0" genFresh svcNotFound
    { code := "ResourceNotFoundException", message := "no agent" }
    (by decide) (by decide) rfl (by decide)

/-- C4 counterexample: a fragment with surrounding whitespace is returned
stripped, so the response text is NOT the plain concatenation of the
fragments — `query_cooking_agent` on the single fragment " Bonjour "
answers "Bonjour". -/
theorem ask_padded_fragment_counterexample :
    concatEvents [StreamEvent.chunkBytes " Bonjour "] = " Bonjour " ∧
    (query_cooking_agent connOk (some "s0") genFresh svcPadded).result.response =
      "Bonjour" ∧
    ("Bonjour" : String) ≠ " Bonjour " := by decide

/-- C4 amended: when the trimmed concatenation of the fragments is
non-empty, the response text equals the whitespace-trimmed concatenation of
all fragments in arrival order (no reordering, dropping, or deduplication
apart from trimming the two ends). -/
theorem ask_response_is_trimmed_concat
    (conn : ConnState) (sid0 : Option String) (gen : Nat → String)
    (svc : Nat → InvokeOutcome) (events : List StreamEvent)
    (hconn : (check_aws_connection conn).1 = true)
    (h0 : svc 0 = .ok events)
    (hne : pyStrip (concatEvents events) ≠ "") :
    (query_cooking_agent conn sid0 gen svc).result.response =
      pyStrip (concatEvents events) := by
  simp [query_cooking_agent, hconn, askAttempts, h0, hne]

/-- C4 witness: on the fragments "Bon", "jour" the response is exactly
"Bonjour". -/
theorem ask_response_is_trimmed_concat_witness :
    (query_cooking_agent connOk (some "s0") genFresh svcBonjour).result.response =
      pyStrip (concatEvents [StreamEvent.chunkBytes "Bon", StreamEvent.chunkBytes "jour"]) ∧
    pyStrip (concatEvents [StreamEvent.chunkBytes "Bon", StreamEvent.chunkBytes "jour"]) =
      "Bonjour" :=
  ⟨ask_response_is_trimmed_concat connOk (some "s0") genFresh svcBonjour
      [StreamEvent.chunkBytes "Bon", StreamEvent.chunkBytes "jour"]
      (by decide) rfl (by decide),
    by decide⟩

/-- C1 counterexample: with a context-window first failure (message
"Input is longer than the model context window supports") and a failing
retry, the client does NOT return success=false with the original error's
diagnostic — it returns success=true with the fixed rotation notice. -/
theorem ask_ctx_both_fail_counterexample :
    (query_cooking_agent connOk (some "s0") genFresh svcBothFail).result.success = true ∧
    (query_cooking_agent connOk (some "s0") genFresh svcBothFail).result.response =
      "Conversation too long. Starting fresh session..." := by decide

/-- C1 amended: when the first invocation fails with a `ClientError` whose
message matches the context-window detection (and whose code is not one of
the two specially-cased codes) and the one-shot retry also fails, the
retry's error is discarded: the ORIGINAL error is re-handled by the outer
handler, so the client returns success=true with the fixed
"Conversation too long" notice, a freshly generated session identifier and
the new-session flag, and the outcome is independent of the retry's error. -/
theorem ask_ctx_both_fail_original_error_decides
    (conn : ConnState) (s : String) (gen : Nat → String)
    (svc : Nat → InvokeOutcome) (e : ClientError)
    (hconn : (check_aws_connection conn).1 = true)
    (hs : s ≠ "")
    (h0 : svc 0 = .clientError e)
    (hmsg : isContextWindowText e.message = true)
    (hc1 : e.code ≠ "ResourceNotFoundException")
    (hc2 : e.code ≠ "AccessDeniedException")
    (hfail : ∀ events, svc 1 ≠ .ok events) :
    (query_cooking_agent conn (some s) gen svc).result =
      { response := "Conversation too long. Starting fresh session...",
        session_id := some (gen 1), success := true, new_session := true } ∧
    ∀ svc2 : Nat → InvokeOutcome, svc2 0 = svc 0 →
      (∀ events, svc2 1 ≠ .ok events) →
      query_cooking_agent conn (some s) gen svc2 =
        query_cooking_agent conn (some s) gen svc := by
  have hctx : isContextWindowText e.render = true := ctx_render_of_message hmsg
  have main : ∀ svc3 : Nat → InvokeOutcome, svc3 0 = .clientError e →
      (∀ events, svc3 1 ≠ .ok events) →
      query_cooking_agent conn (some s) gen svc3 =
        { result := { response := "Conversation too long. Starting fresh session...",
                      session_id := some (gen 1), success := true, new_session := true },
          calls := [s, gen 0] } := by
    intro svc3 h30 h3f
    cases h31 : svc3 1 with
    | ok events => exact absurd h31 (h3f events)
    | clientError e2 =>
        simp [query_cooking_agent, hconn, truthy_some hs, askAttempts, h30, hctx,
          h31, handleClientError, hc1, hc2, hmsg]
    | exn m =>
        simp [query_cooking_agent, hconn, truthy_some hs, askAttempts, h30, hctx,
          h31, handleClientError, hc1, hc2, hmsg]
  constructor
  · rw [main svc h0 hfail]
  · intro svc2 h20 h2f
    rw [main svc2 (h20.trans h0) h2f, main svc h0 hfail]

/-- C1 amended witness at a concrete double failure. -/
theorem ask_ctx_both_fail_original_error_decides_witness :
    (query_cooking_agent connOk (some "s0") genFresh svcBothFail).result =
      { response := "Conversation too long. Starting fresh session...",
        session_id := some (genFresh 1), success := true, new_session := true } ∧
    (∀ svc2 : Nat → InvokeOutcome, svc2 0 = svcBothFail 0 →
      (∀ events, svc2 1 ≠ .ok events) →
      query_cooking_agent connOk (some "s0") genFresh svc2 =
        query_cooking_agent connOk (some "s0") genFresh svcBothFail) :=
  ask_ctx_both_fail_original_error_decides connOk "s0" genFresh svcBothFail ctxErr
    (by decide) (by decide) rfl (by decide) (by decide) (by decide)
    (fun events h => by simp [svcBothFail] at h)

end CookingRag
